import Mathlib

/-!
Verification of the Streaky Bay development-application scraper.

This file gives a shallow embedding, in Lean 4, of the pure core of the
scraper found in `src/scraper.ts` (current TypeScript source), its build
`src/unnamed/part_000`, and the older builds kept in `src/unnamed/part_001`
(which contain the multiplexed-address `parseAddress`/`addressComparer`
logic and the `insert or ignore` variant of `insertRow`).

JavaScript strings are modelled as Lean `String` (a list of characters);
all inputs exercised here are ASCII, where JavaScript UTF-16 indexing and
Lean character indexing agree.  JavaScript `number` is modelled as `ℚ` for
the rectangle geometry and as `ℕ` for edit-distance thresholds.
-/

namespace StreakyBay

/-! ### Character and string utilities (JavaScript semantics) -/

/-- Character class of the JavaScript regex `\s` (restricted to the ASCII
whitespace characters, which are the only ones arising in the inputs). -/
def isWsChar (c : Char) : Bool :=
  c == ' ' || c == '\t' || c == '\n' || c == '\r' || c == '\x0b' || c == '\x0c'

/-- JavaScript `String.prototype.trim`: strip leading and trailing whitespace. -/
def jsTrim (s : String) : String :=
  ⟨((s.data.dropWhile isWsChar).reverse.dropWhile isWsChar).reverse⟩

/-- JavaScript `replace(/p+$/, "")` for a character class `p`: strip the
trailing run of characters satisfying `p`. -/
def stripTrailingRun (p : Char → Bool) (s : String) : String :=
  ⟨(s.data.reverse.dropWhile p).reverse⟩

/-- The character class `[-â€“]` of `scraper.ts` line 325 (a hyphen plus the
three characters of a mojibake-encoded en-dash). -/
def isDashChar (c : Char) : Bool :=
  c == '-' || c == 'â' || c == '€' || c == '“'

/-- JavaScript `replace(/,+$/, "")`: strip trailing commas. -/
def stripTrailingCommas (s : String) : String :=
  stripTrailingRun (fun c => c == ',') s

/-- One step of `replace(/\s\s+/g, " ")`: a run of two or more whitespace
characters becomes a single space; a single whitespace character is kept
as it is.  Structural recursion on a fuel argument (the fuel never runs
out when it starts at the length of the list). -/
def collapseWsGo : Nat → List Char → List Char
  | 0, l => l
  | _ + 1, [] => []
  | _ + 1, [c] => [c]
  | n + 1, c1 :: c2 :: rest =>
      if isWsChar c1 && isWsChar c2 then collapseWsGo n (' ' :: rest)
      else c1 :: collapseWsGo n (c2 :: rest)

/-- JavaScript `replace(/\s\s+/g, " ")`. -/
def collapseWs (s : String) : String :=
  ⟨collapseWsGo s.data.length s.data⟩

/-- JavaScript `String.prototype.startsWith`. -/
def startsWithStr (s pre : String) : Bool :=
  pre.data.isPrefixOf s.data

/-- JavaScript `String.prototype.toUpperCase` (ASCII letters). -/
def toUpperStr (s : String) : String :=
  ⟨s.data.map Char.toUpper⟩

/-- JavaScript `String.prototype.toLowerCase` (ASCII letters). -/
def toLowerStr (s : String) : String :=
  ⟨s.data.map Char.toLower⟩

/-- Drop the first `n` characters (JavaScript `substring(n)` on ASCII data). -/
def dropChars (s : String) (n : Nat) : String :=
  ⟨s.data.drop n⟩

/-- JavaScript `Array.prototype.split(" ")` on a string: split at every
single space character, keeping empty pieces (`"".split(" ")` is `[""]`). -/
def splitSpace : List Char → List (List Char)
  | [] => [[]]
  | c :: rest =>
      match splitSpace rest with
      | [] => [[c]]
      | t :: ts => if c == ' ' then [] :: t :: ts else (c :: t) :: ts

/-- `split(" ")` on a `String`. -/
def jsSplitSpace (s : String) : List String :=
  (splitSpace s.data).map (fun l => (⟨l⟩ : String))

/-- JavaScript `Array.prototype.join(" ")`. -/
def joinSpace : List String → String
  | [] => ""
  | [s] => s
  | s :: rest => s ++ " " ++ joinSpace rest

/-- JavaScript `array.slice(-n)`: the last `n` elements (the whole array
when it has fewer than `n` elements). -/
def jsSliceNeg (l : List String) (n : Nat) : List String :=
  l.drop (l.length - n)

/-- JavaScript `array.splice(-n, n)` (as used in `formatAddress`): remove
the last `n` elements (everything when the array has fewer than `n`),
returning the array that remains. -/
def jsSpliceNeg (l : List String) (n : Nat) : List String :=
  l.take (l.length - n)

/-- Character class of the JavaScript regex `\w`: ASCII letters, digits
and underscore. -/
def isWordChar (c : Char) : Bool :=
  c.isAlpha || c.isDigit || c == '_'

/-- Scanner for the JavaScript regex test `/\bSA\b/`: `prev` is the
character immediately before the current position (`none` at the start). -/
def containsSAGo : Option Char → List Char → Bool
  | prev, 'S' :: 'A' :: rest =>
      ((match prev with
        | none => true
        | some p => !isWordChar p) &&
       (match rest with
        | [] => true
        | c :: _ => !isWordChar c))
      || containsSAGo (some 'S') ('A' :: rest)
  | _, [] => false
  | _, c :: rest => containsSAGo (some c) rest

/-- JavaScript `/\bSA\b/.test(s)`: the string contains the standalone
token `SA`. -/
def containsStandaloneSA (s : String) : Bool :=
  containsSAGo none s.data

/-- JavaScript `/^\d\d\d\d$/.test(s)`: exactly four digits. -/
def isFourDigits (s : String) : Bool :=
  match s.data with
  | [a, b, c, d] => a.isDigit && b.isDigit && c.isDigit && d.isDigit
  | _ => false

/-! ### The fuzzy matcher

`didyoumean2` is an external library; its behaviour is not part of this
repository's sources.  Modelled from the spec: §4.2 "Fuzzy Matcher"
describes `didYouMean(query, candidates, { FIRST_CLOSEST_MATCH,
EDIT_DISTANCE, threshold, caseSensitive: false, trimSpaces: true })` as
returning the first candidate (in iteration order) whose edit distance to
the query — both sides case-folded and whitespace-trimmed — attains the
minimum, provided that distance does not exceed the threshold, and `null`
otherwise. -/

/-- One row update of the Wagner–Fischer edit-distance table:
`pjm1`, `pj :: prest` walk the previous row and `qjm1` is the entry just
computed on the current row. -/
def levRowGo (ca : Char) : List Char → Nat → List Nat → Nat → List Nat
  | [], _, _, _ => []
  | _ :: _, _, [], _ => []
  | cb :: bs, pjm1, pj :: prest, qjm1 =>
      let qj := if ca == cb then pjm1 else 1 + min pjm1 (min pj qjm1)
      qj :: levRowGo ca bs pj prest qj

/-- Compute the next row of the edit-distance table from the previous one. -/
def levRow (ca : Char) (b : List Char) (prev : List Nat) : List Nat :=
  match prev with
  | [] => []
  | p0 :: prest => (p0 + 1) :: levRowGo ca b p0 prest (p0 + 1)

/-- Levenshtein edit distance between two character lists (dynamic
programming by rows, so that it evaluates in the kernel). -/
def levenshtein (a b : List Char) : Nat :=
  (a.foldl (fun row ca => levRow ca b row) (List.range (b.length + 1))).getLastD 0

/-- Normalisation applied by the fuzzy matcher to both sides
(`caseSensitive: false`, `trimSpaces: true`). -/
def fuzzyNorm (s : String) : List Char :=
  (toLowerStr (jsTrim s)).data

/-- Modelled from the spec (§4.2): the `didyoumean2` call with
`FIRST_CLOSEST_MATCH` / `EDIT_DISTANCE`.  Returns the first candidate in
iteration order attaining the minimum edit distance to the query, when
that minimum does not exceed `threshold`. -/
def didYouMean (query : String) (candidates : List String) (threshold : Nat) :
    Option String :=
  let q := fuzzyNorm query
  let best := candidates.foldl
    (fun acc c =>
      let d := levenshtein q (fuzzyNorm c)
      match acc with
      | none => some (c, d)
      | some (c₀, d₀) => if d < d₀ then some (c, d) else some (c₀, d₀))
    none
  match best with
  | some (c, d) => if d ≤ threshold then some c else none
  | none => none

/-! ### Geometry (`scraper.ts` lines 72–112) -/

/-- A bounding rectangle (`interface Rectangle`). -/
structure Rectangle where
  x : ℚ
  y : ℚ
  width : ℚ
  height : ℚ
deriving DecidableEq, Repr

/-- An element of a PDF page: text plus a bounding rectangle
(`interface Element extends Rectangle`). -/
structure Element extends Rectangle where
  text : String
deriving DecidableEq, Repr

/-- Constructs a rectangle based on the intersection of the two specified
rectangles (`scraper.ts` lines 87–96). -/
def intersect (rectangle1 rectangle2 : Rectangle) : Rectangle :=
  let x1 := max rectangle1.x rectangle2.x
  let y1 := max rectangle1.y rectangle2.y
  let x2 := min (rectangle1.x + rectangle1.width) (rectangle2.x + rectangle2.width)
  let y2 := min (rectangle1.y + rectangle1.height) (rectangle2.y + rectangle2.height)
  if x1 ≤ x2 ∧ y1 ≤ y2 then
    { x := x1, y := y1, width := x2 - x1, height := y2 - y1 }
  else
    { x := 0, y := 0, width := 0, height := 0 }

/-- Calculates the area of a rectangle (`scraper.ts` lines 110–112). -/
def getArea (rectangle : Rectangle) : ℚ :=
  rectangle.width * rectangle.height

/-- Calculates the fraction of an element that lies within a rectangle, as
a percentage (`scraper.ts` lines 102–106). -/
def getPercentageOfElementInRectangle (element : Element) (rectangle : Rectangle) : ℚ :=
  let elementArea := getArea element.toRectangle
  let intersectionArea := getArea (intersect rectangle element.toRectangle)
  if elementArea = 0 then 0 else intersectionArea * 100 / elementArea

/-! ### The persistence operation (`insertRow`)

The sqlite table `[data]` has `[council_reference]` (the application
number) as its primary key; a table state is modelled as a list of rows
whose keys are pairwise distinct.  The two SQL statements occurring in the
repository are modelled by their documented sqlite semantics. -/

/-- The record handed to `insertRow` (the `CanonicalDevelopmentApplication`
shape of the spec's §3). -/
structure DevelopmentApplication where
  applicationNumber : String
  address : String
  description : String
  informationUrl : String
  commentUrl : String
  scrapeDate : String
  receivedDate : String
deriving DecidableEq, Repr

/-- `insertRow` of `src/scraper.ts` lines 46–68 (and its build
`src/unnamed/part_000` lines 35–58): `insert or replace into [data]` —
when a row with the same primary key exists, that row is replaced by the
new record; otherwise the record is appended. -/
def insertRowReplace (table : List DevelopmentApplication)
    (developmentApplication : DevelopmentApplication) : List DevelopmentApplication :=
  if table.any (fun row => row.applicationNumber == developmentApplication.applicationNumber) then
    table.map (fun row =>
      if row.applicationNumber == developmentApplication.applicationNumber then
        developmentApplication
      else row)
  else
    table ++ [developmentApplication]

/-- `insertRow` of `src/unnamed/part_001` lines 35–61 (and its other two
copies in that file): `insert or ignore into [data]` — when a row with the
same primary key exists, nothing changes; otherwise the record is
appended. -/
def insertRowIgnore (table : List DevelopmentApplication)
    (developmentApplication : DevelopmentApplication) : List DevelopmentApplication :=
  if table.any (fun row => row.applicationNumber == developmentApplication.applicationNumber) then
    table
  else
    table ++ [developmentApplication]

/-! ### The multiplexed-address comparator
(`src/unnamed/part_001` lines 253–301 and 1352–1406) -/

/-- A delimiter-split candidate of `parseAddress`
(`{ group1, group2, hasInvalidHundredName }`). -/
structure CandidateSplit where
  group1 : List String
  group2 : List String
  hasInvalidHundredName : Bool
deriving DecidableEq, Repr

/-- An address candidate pushed by `parseAddress`
(`{ houseNumber, streetName, suburbName, threshold, candidate }`).
The edit-distance threshold that succeeded is 0, 1 or 2; the sentinel
`Number.MAX_VALUE` for an unrecognised street name is any value above 2
(`ℕ` keeps the comparisons faithful). -/
structure AddressCandidate where
  houseNumber : String
  streetName : String
  suburbName : String
  threshold : Nat
  candidate : CandidateSplit
deriving DecidableEq, Repr

/-- `addressComparer` (`src/unnamed/part_001` lines 253–301, identical at
lines 1352–1406).  A negative result sorts `a` before `b`, a positive one
sorts `b` before `a`.  The JavaScript function has no `return` on its
final fall-through path and yields `undefined` there, modelled as
`none`. -/
def addressComparer (a b : AddressCandidate) : Option Int :=
  if (a.threshold ≤ 2 ∧ b.threshold ≤ 2) ∧ (a.houseNumber = "" ∧ b.houseNumber ≠ "") then
    some 1
  else if (a.threshold ≤ 2 ∧ b.threshold ≤ 2) ∧ (a.houseNumber ≠ "" ∧ b.houseNumber = "") then
    some (-1)
  else if b.threshold < a.threshold then
    some 1
  else if a.threshold < b.threshold then
    some (-1)
  else if a.houseNumber = "" ∧ b.houseNumber ≠ "" then
    some 1
  else if a.houseNumber ≠ "" ∧ b.houseNumber = "" then
    some (-1)
  else if a.candidate.hasInvalidHundredName = true ∧ b.candidate.hasInvalidHundredName = false then
    some 1
  else if a.candidate.hasInvalidHundredName = false ∧ b.candidate.hasInvalidHundredName = true then
    some (-1)
  else
    none

/-! ### The reference gazetteer

Four lookup tables loaded once at startup (`scraper.ts` lines 586–610).
JavaScript objects with non-numeric string keys iterate in insertion
order, so each table is an association list; `Object.keys` is the list of
first components. -/

/-- The four reference tables (`StreetNames`, `StreetSuffixes`,
`SuburbNames`, `HundredNames`).  In `scraper.ts` a street name maps to the
list of suburbs it serves and a hundred name maps to its list of
associated suburbs. -/
structure Gazetteer where
  streetNames : List (String × List String)
  streetSuffixes : List (String × String)
  suburbNames : List (String × String)
  hundredNames : List (String × List String)
deriving Repr

/-- JavaScript property access `table[key]` on an association list:
the first binding of the key, or `undefined`. -/
def lookupTable {α : Type} (table : List (String × α)) (key : String) : Option α :=
  (table.find? (fun p => p.1 == key)).map (fun p => p.2)

/-! ### `formatAddress` (Mode 1, `scraper.ts` lines 324–496)

The function is embedded in stages that follow the source top to bottom;
`mode1Parse` performs every step up to the suburb check and records which
of the four exits of the source function is taken, and `formatAddress`
turns that into the returned string. -/

/-- Line 325: trim, strip trailing dash runs, collapse whitespace, trim. -/
def cleanupAddress (address : String) : String :=
  jsTrim (collapseWs (stripTrailingRun isDashChar (jsTrim address)))

/-- Line 326: the address reduces to nothing once whitespace, commas,
zeros and dashes are removed, or carries the "no residential address"
marker. -/
def isBlankAddress (address : String) : Bool :=
  (address.data.filter
    (fun c => !(isWsChar c || c == ',' || c == '0' || c == '-'))).isEmpty
  || startsWithStr address "No Residential Address"

/-- Line 339: the test `/^\d,\d\d\d/`. -/
def matchesOneDigitComma (s : String) : Bool :=
  match s.data with
  | x :: y :: a :: b :: c :: _ =>
      x.isDigit && (y == ',') && a.isDigit && b.isDigit && c.isDigit
  | _ => false

/-- Line 341: the test `/^\d\d,\d\d\d/`. -/
def matchesTwoDigitComma (s : String) : Bool :=
  match s.data with
  | x :: y :: z :: a :: b :: c :: _ =>
      x.isDigit && y.isDigit && (z == ',') && a.isDigit && b.isDigit && c.isDigit
  | _ => false

/-- Lines 339–342: delete the thousands-separator comma of a leading house
number (`"4,665..." → "4665..."`, `"11,287..." → "11287..."`). -/
def normalizeCommaNumber (s : String) : String :=
  if matchesOneDigitComma s then ⟨s.data.take 1 ++ s.data.drop 2⟩
  else if matchesTwoDigitComma s then ⟨s.data.take 2 ++ s.data.drop 3⟩
  else s

/-- Lines 346–353: pop a trailing four-digit token as the post code,
pushing a non-matching token back.  `none` models the `return address`
taken when `pop()` yields `undefined`. -/
def popPostcode (tokens : List String) : Option (Option String × List String) :=
  match tokens.getLast? with
  | none => none
  | some token =>
      if isFourDigits token then some (some token, tokens.dropLast)
      else some (none, tokens)

/-- The eight Australian state and territory abbreviations
(line 361). -/
def stateAbbreviations : List String :=
  ["ACT", "NSW", "NT", "QLD", "SA", "TAS", "VIC", "WA"]

/-- Lines 357–364: pop a trailing state-code token (any letter case),
defaulting the state to `"SA"` and pushing the token back otherwise.
`none` models the `return address` taken when `pop()` yields
`undefined`. -/
def popState (tokens : List String) : Option (String × List String) :=
  match tokens.getLast? with
  | none => none
  | some token =>
      if stateAbbreviations.contains (toUpperStr token) then
        some (toUpperStr token, tokens.dropLast)
      else
        some ("SA", tokens)

/-- Line 397: strip the recognised hundred-name lead-in, one prefix
replacement after the other, then trim. -/
def stripHundredLeadIn (s : String) : String :=
  let s1 := if startsWithStr s "HD OF " then dropChars s 6 else s
  let s2 := if startsWithStr s1 "HUNDRED OF " then dropChars s1 11 else s1
  let s3 := if startsWithStr s2 "HD " then dropChars s2 3 else s2
  let s4 := if startsWithStr s3 "HUNDRED " then dropChars s3 8 else s3
  jsTrim s4

/-- Outcome of the hundred-name loop (lines 391–409): whether a hundred
name was found, the suburb it determined (when unique), and the remaining
tokens. -/
structure HundredOutcome where
  hasHundredName : Bool
  suburbName : Option String
  tokens : List String
deriving Repr

/-- One iteration of the hundred-name loop at window size `index`
(lines 394–409): `none` means the loop continues with the next smaller
window. -/
def tryHundredAt (g : Gazetteer) (tokens : List String) (index : Nat) :
    Option HundredOutcome :=
  let tryHundredName := toUpperStr (joinSpace (jsSliceNeg tokens index))
  if startsWithStr tryHundredName "HD OF " || startsWithStr tryHundredName "HUNDRED OF"
      || startsWithStr tryHundredName "HD " || startsWithStr tryHundredName "HUNDRED " then
    match didYouMean (stripHundredLeadIn tryHundredName) (g.hundredNames.map (fun p => p.1)) 1 with
    | some hundredNameMatch =>
        match lookupTable g.hundredNames hundredNameMatch with
        | some suburbNames =>
            match suburbNames with
            | [uniqueSuburb] =>
                some { hasHundredName := true,
                       suburbName := lookupTable g.suburbNames uniqueSuburb,
                       tokens := jsSpliceNeg tokens index }
            | _ =>
                some { hasHundredName := true, suburbName := none, tokens := tokens }
        | none => some { hasHundredName := true, suburbName := none, tokens := tokens }
    | none => none
  else none

/-- The hundred-name loop, window sizes 4 down to 1 (lines 394–409). -/
def runHundred (g : Gazetteer) (tokens : List String) : HundredOutcome :=
  (([4, 3, 2, 1].findSome? (tryHundredAt g tokens)).getD
    { hasHundredName := false, suburbName := none, tokens := tokens })

/-- The suburb-name loop, window sizes 4 down to 1 (lines 414–424),
returning the resolved canonical suburb string and the remaining tokens on
success. -/
def runSuburb (g : Gazetteer) (tokens : List String) :
    Option (Option String × List String) :=
  [4, 3, 2, 1].findSome? (fun index =>
    (didYouMean (joinSpace (jsSliceNeg tokens index)) (g.suburbNames.map (fun p => p.1)) 1).map
      (fun suburbNameMatch =>
        (lookupTable g.suburbNames suburbNameMatch, jsSpliceNeg tokens index)))

/-- Street-suffix expansion (lines 428–438): pop the trailing token, strip
trailing commas, replace a recognised abbreviation by its expansion (or an
already-expanded suffix by its upper-cased self), and push the result
back. -/
def expandSuffix (g : Gazetteer) (tokens : List String) : List String :=
  match tokens.getLast? with
  | none => tokens
  | some token =>
      let token' := jsTrim (stripTrailingCommas (jsTrim token))
      let rest := tokens.dropLast
      match lookupTable g.streetSuffixes (toUpperStr token') with
      | some streetSuffix => rest ++ [streetSuffix]
      | none =>
          match (g.streetSuffixes.map (fun p => p.2)).find?
              (fun streetSuffix => streetSuffix == toUpperStr token') with
          | some streetSuffix => rest ++ [streetSuffix]
          | none => rest ++ [token']

/-- The street-name loop, window sizes 5 down to 1 (lines 444–463),
returning the matched street name, its associated suburb list and the
remaining tokens on success. -/
def runStreet (g : Gazetteer) (tokens : List String) :
    Option (String × List String × List String) :=
  [5, 4, 3, 2, 1].findSome? (fun index =>
    let tryStreetName := jsTrim (stripTrailingCommas (jsTrim (joinSpace (jsSliceNeg tokens index))))
    (didYouMean tryStreetName (g.streetNames.map (fun p => p.1)) 1).map
      (fun streetNameMatch =>
        (streetNameMatch, (lookupTable g.streetNames streetNameMatch).getD [],
         jsSpliceNeg tokens index)))

/-- Lines 469–470: `suburbName.replace(/\s+\d\d\d\d$/, " " + postCode)` —
replace a trailing whitespace-run-plus-four-digits group by a space and
the explicit post code. -/
def overridePostcode (suburbName postCode : String) : String :=
  match suburbName.data.reverse with
  | d1 :: d2 :: d3 :: d4 :: c :: rest =>
      if d1.isDigit && d2.isDigit && d3.isDigit && d4.isDigit && isWsChar c then
        ⟨((rest.dropWhile isWsChar).reverse) ++ (' ' :: postCode.data)⟩
      else suburbName
  | _ => suburbName

/-- Lines 484–487: push a non-blank street name, join, trim, strip
trailing commas, trim, then append a comma and the suburb. -/
def mode1Assemble (tokens : List String) (streetName : Option String)
    (suburbName : String) : String :=
  let tokens' :=
    match streetName with
    | some s => if jsTrim s == "" then tokens else tokens ++ [s]
    | none => tokens
  let streetAddress := jsTrim (stripTrailingCommas (jsTrim (joinSpace tokens')))
  streetAddress ++ (if streetAddress == "" then "" else ", ") ++ suburbName

/-- Lines 492–493: append `" SA"` when the non-empty address does not
contain the standalone token `SA`. -/
def appendSA (address : String) : String :=
  if address == "" then address
  else if containsStandaloneSA address then address
  else address ++ " SA"

/-- The four exits of `formatAddress`: rejected as blank (line 327),
returned early when a `pop()` found no token (lines 349, 360), rejected
for want of a suburb name (line 476), or assembled from the resolved
parts (lines 479–495). -/
inductive Mode1Result
  | blank
  | early (address : String)
  | noSuburb
  | assembled (tokens : List String) (streetName : Option String)
      (suburbName : String) (fallbackAddress : String)
deriving DecidableEq, Repr

/-- The body of `formatAddress` up to the suburb check (`scraper.ts`
lines 324–477), recording which exit the function takes and, on the
assembly path, the resolved parts it assembles. -/
def mode1Parse (g : Gazetteer) (address0 : String) : Mode1Result :=
  let address1 := cleanupAddress address0
  if isBlankAddress address1 then .blank
  else
    let address := normalizeCommaNumber address1
    let tokens0 := jsSplitSpace address
    match popPostcode tokens0 with
    | none => .early address
    | some (postCode, tokens1) =>
      match popState tokens1 with
      | none => .early address
      | some (state, tokens2) =>
        let fallbackAddress :=
          match postCode with
          | none => address
          | some pc => jsTrim (joinSpace (tokens2 ++ [state, pc]))
        let hundredOutcome := runHundred g tokens2
        let afterSuburb :=
          if hundredOutcome.hasHundredName then
            (hundredOutcome.suburbName, hundredOutcome.tokens)
          else
            match runSuburb g hundredOutcome.tokens with
            | some (sn, ts) => (sn, ts)
            | none => (none, hundredOutcome.tokens)
        let tokens4 := expandSuffix g afterSuburb.2
        let afterStreet :=
          match runStreet g tokens4 with
          | some (streetNameMatch, suburbNames, ts) =>
              (some streetNameMatch,
               (if afterSuburb.1.isNone then
                  match suburbNames with
                  | [uniqueSuburb] => lookupTable g.suburbNames uniqueSuburb
                  | _ => afterSuburb.1
                else afterSuburb.1),
               ts)
          | none => (none, afterSuburb.1, tokens4)
        let suburbName :=
          match postCode, afterStreet.2.1 with
          | some pc, some sn => some (overridePostcode sn pc)
          | _, sn => sn
        match suburbName with
        | none => .noSuburb
        | some sn => .assembled afterStreet.2.2 afterStreet.1 sn fallbackAddress

/-- `formatAddress` (`scraper.ts` lines 324–496).  The application number
is only used for logging in the source and does not affect the result. -/
def formatAddress (g : Gazetteer) (applicationNumber address : String) : String :=
  match mode1Parse g address with
  | .blank => ""
  | .early a => a
  | .noSuburb => ""
  | .assembled tokens streetName suburbName fallbackAddress =>
      appendSA
        (if jsTrim suburbName == "" then fallbackAddress
         else mode1Assemble tokens streetName suburbName)

/-! ### The per-document page pipeline (`parsePdf`, `scraper.ts` lines 500–562)

Per page, the scraper either produces a development application or skips
the page (`undefined`); the loop body then appends the record unless one
with the same application number was already accumulated.  The I/O-free
accumulation loop is modelled over the list of per-page parse results. -/

/-- The accumulation loop of `parsePdf` (`scraper.ts` lines 549–558):
`developmentApplications` is the accumulator, one list entry per parsed
page (`none` when the page was skipped). -/
def parsePdfGo (developmentApplications : List DevelopmentApplication) :
    List (Option DevelopmentApplication) → List DevelopmentApplication
  | [] => developmentApplications
  | none :: rest => parsePdfGo developmentApplications rest
  | some app :: rest =>
      if developmentApplications.any
          (fun other => other.applicationNumber == app.applicationNumber) then
        parsePdfGo developmentApplications rest
      else
        parsePdfGo (developmentApplications ++ [app]) rest

/-- `parsePdf` restricted to its pure accumulation behaviour: the list of
records returned for a document whose pages parsed to `pages`. -/
def parsePdf (pages : List (Option DevelopmentApplication)) : List DevelopmentApplication :=
  parsePdfGo [] pages

/-! ### The spec-side assembly sentence (for claim C2)

Written from the spec's words (§4.5 Mode 1, final assembly), as amended:
the remaining tokens followed by the resolved street name, joined with
spaces, trimmed and stripped of trailing commas, then a comma and the
resolved suburb, then `" SA"` when the result lacks a standalone `SA`;
no upper-casing. -/

/-- Spec-side final assembly of a Mode 1 address from the resolved parts. -/
def specMode1Assembly (tokens : List String) (streetName : Option String)
    (suburbName : String) : String :=
  let streetPart :=
    jsTrim (stripTrailingCommas (jsTrim (joinSpace
      (tokens ++
        (match streetName with
         | some s => if jsTrim s == "" then [] else [s]
         | none => [])))))
  appendSA (streetPart ++ (if streetPart == "" then "" else ", ") ++ suburbName)

/-! ### Concrete fixtures used by witnesses and counterexamples -/

/-- A gazetteer holding only the suburb MENINGIE. -/
def gMeningie : Gazetteer :=
  { streetNames := [], streetSuffixes := [],
    suburbNames := [("MENINGIE", "MENINGIE 5264")], hundredNames := [] }

/-- A gazetteer around the spec's own example street "JEFFERSON COURT",
whose single associated suburb is WELLINGTON EAST. -/
def gJefferson : Gazetteer :=
  { streetNames := [("JEFFERSON COURT", ["WELLINGTON EAST"])],
    streetSuffixes := [("CT", "COURT")],
    suburbNames := [("WELLINGTON EAST", "WELLINGTON EAST 5263")],
    hundredNames := [] }

/-- The empty gazetteer. -/
def emptyGazetteer : Gazetteer :=
  { streetNames := [], streetSuffixes := [], suburbNames := [], hundredNames := [] }

/-- A stored development-application row. -/
def rowOld : DevelopmentApplication :=
  { applicationNumber := "455/052/19", address := "1 OLD ROAD, PIEDNIPPIE SA",
    description := "Shed", informationUrl := "https://www.streakybay.sa.gov.au/page.aspx?u=513",
    commentUrl := "mailto:dcstreaky@streakybay.sa.gov.au",
    scrapeDate := "2019-03-15", receivedDate := "2019-03-01" }

/-- A record with the same application number as `rowOld` but different
field values. -/
def rowNew : DevelopmentApplication :=
  { applicationNumber := "455/052/19", address := "2 NEW ROAD, PIEDNIPPIE SA",
    description := "Garage", informationUrl := "https://www.streakybay.sa.gov.au/page.aspx?u=513",
    commentUrl := "mailto:dcstreaky@streakybay.sa.gov.au",
    scrapeDate := "2019-04-20", receivedDate := "2019-04-01" }

/-- A delimiter split with a well-formed hundred name. -/
def splitPlain : CandidateSplit :=
  { group1 := ["BARUNGA", "Lake View"], group2 := ["HD", "Road"],
    hasInvalidHundredName := false }

/-- A delimiter split that produced the invalid hundred name
"BARUNGA View HD". -/
def splitInvalidHd : CandidateSplit :=
  { group1 := ["BARUNGA", "Lake"], group2 := ["View HD", "Road"],
    hasInvalidHundredName := true }

/-- A candidate with a house number and two spelling errors. -/
def candWithHouse : AddressCandidate :=
  { houseNumber := "79", streetName := "ROSSLYN ROAD", suburbName := "WALLAROO",
    threshold := 2, candidate := splitPlain }

/-- A candidate without a house number and an exact street-name match. -/
def candNoHouse : AddressCandidate :=
  { houseNumber := "", streetName := "SWIFT WINGS ROAD", suburbName := "WALLAROO",
    threshold := 0, candidate := splitPlain }

/-- A candidate from the split without the invalid hundred name. -/
def candValidHd : AddressCandidate :=
  { houseNumber := "4", streetName := "LAKE VIEW ROAD", suburbName := "WALLAROO",
    threshold := 0, candidate := splitPlain }

/-- A candidate, tied with `candValidHd` on threshold and house-number
presence, from the split carrying the invalid hundred name. -/
def candInvalidHd : AddressCandidate :=
  { houseNumber := "4", streetName := "LAKE ROAD", suburbName := "WALLAROO",
    threshold := 0, candidate := splitInvalidHd }

/-- A candidate tying with `candTieB` on every comparison criterion. -/
def candTieA : AddressCandidate :=
  { houseNumber := "79", streetName := "ROSSLYN ROAD", suburbName := "WALLAROO",
    threshold := 1, candidate := splitPlain }

/-- A candidate tying with `candTieA` on every comparison criterion. -/
def candTieB : AddressCandidate :=
  { houseNumber := "4", streetName := "SWIFT WINGS ROAD", suburbName := "WALLAROO",
    threshold := 1, candidate := splitPlain }

/-- A fragment lying entirely inside `rectOuter`, with positive area. -/
def elemInside : Element :=
  { x := 2, y := 3, width := 4, height := 5, text := "fragment" }

/-- A fragment with zero area. -/
def elemZeroArea : Element :=
  { x := 50, y := 60, width := 0, height := 7, text := "degenerate" }

/-- A rectangle containing `elemInside`. -/
def rectOuter : Rectangle := { x := 0, y := 0, width := 100, height := 100 }

/-! ## Theorems -/

set_option maxRecDepth 40000

/-- C1: the current `insertRow` of `scraper.ts` executes
`insert or replace`, so on a store already holding a row with the same
`applicationNumber` the existing row's fields are overwritten — the
claimed upsert-or-skip contract (kept by the `insert or ignore` variant of
`src/unnamed/part_001`, and stated by `scraper.ts`'s own comment) is
violated at this concrete input. -/
theorem insertRowReplace_overwrites_existing_row :
    insertRowReplace [rowOld] rowNew = [rowNew] ∧
    insertRowIgnore [rowOld] rowNew = [rowOld] ∧
    rowNew.address ≠ rowOld.address := by
  refine ⟨by decide, by decide, by decide⟩

/-- C4: when both candidates are within edit-distance threshold 2, the one
with a non-empty house number sorts strictly before the one with an empty
house number, regardless of which threshold is smaller. -/
theorem addressComparer_prefers_house_number (a b : AddressCandidate)
    (h1 : a.threshold ≤ 2) (h2 : b.threshold ≤ 2)
    (h3 : a.houseNumber ≠ "") (h4 : b.houseNumber = "") :
    addressComparer a b = some (-1) ∧ addressComparer b a = some 1 := by
  constructor
  · unfold addressComparer
    rw [if_neg (fun h => h3 h.2.1), if_pos ⟨⟨h1, h2⟩, h3, h4⟩]
  · unfold addressComparer
    rw [if_pos ⟨⟨h2, h1⟩, h4, h3⟩]

/-- Witness for C4: a candidate with threshold 2 and a house number sorts
before a candidate with threshold 0 and no house number. -/
theorem addressComparer_prefers_house_number_witness :
    addressComparer candWithHouse candNoHouse = some (-1) ∧
    addressComparer candNoHouse candWithHouse = some 1 :=
  addressComparer_prefers_house_number candWithHouse candNoHouse
    (by decide) (by decide) (by decide) (by decide)

/-- C5: with equal thresholds and the same house-number emptiness, the
candidate whose split does not carry `hasInvalidHundredName` sorts
strictly before the one whose split does. -/
theorem addressComparer_penalizes_invalid_hundred (a b : AddressCandidate)
    (hth : a.threshold = b.threshold)
    (hh : a.houseNumber = "" ↔ b.houseNumber = "")
    (ha : a.candidate.hasInvalidHundredName = false)
    (hb : b.candidate.hasInvalidHundredName = true) :
    addressComparer a b = some (-1) ∧ addressComparer b a = some 1 := by
  constructor
  · unfold addressComparer
    rw [if_neg (fun h => h.2.2 (hh.mp h.2.1)),
        if_neg (fun h => h.2.1 (hh.mpr h.2.2)),
        if_neg (by omega),
        if_neg (by omega),
        if_neg (fun h => h.2 (hh.mp h.1)),
        if_neg (fun h => h.1 (hh.mpr h.2)),
        if_neg (fun h => by rw [ha] at h; exact absurd h.1 (by simp)),
        if_pos ⟨ha, hb⟩]
  · unfold addressComparer
    rw [if_neg (fun h => h.2.2 (hh.mpr h.2.1)),
        if_neg (fun h => h.2.1 (hh.mp h.2.2)),
        if_neg (by omega),
        if_neg (by omega),
        if_neg (fun h => h.2 (hh.mpr h.1)),
        if_neg (fun h => h.1 (hh.mp h.2)),
        if_pos ⟨hb, ha⟩]

/-- Witness for C5: the candidate from the valid split sorts before the
equal-threshold, equal-house-presence candidate from the split with the
invalid hundred name. -/
theorem addressComparer_penalizes_invalid_hundred_witness :
    addressComparer candValidHd candInvalidHd = some (-1) ∧
    addressComparer candInvalidHd candValidHd = some 1 :=
  addressComparer_penalizes_invalid_hundred candValidHd candInvalidHd
    (by decide) (by decide) (by decide) (by decide)

/-- C10: when two candidates tie on every comparison criterion — equal
threshold, same house-number emptiness, same invalid-hundred-name flag —
`addressComparer` falls through every branch and returns `undefined`
(`none`) rather than 0: it is not a total numeric comparison function. -/
theorem addressComparer_tie_returns_undefined (a b : AddressCandidate)
    (hth : a.threshold = b.threshold)
    (hh : a.houseNumber = "" ↔ b.houseNumber = "")
    (hinv : a.candidate.hasInvalidHundredName = b.candidate.hasInvalidHundredName) :
    addressComparer a b = none := by
  unfold addressComparer
  rw [if_neg (fun h => h.2.2 (hh.mp h.2.1)),
      if_neg (fun h => h.2.1 (hh.mpr h.2.2)),
      if_neg (by omega),
      if_neg (by omega),
      if_neg (fun h => h.2 (hh.mp h.1)),
      if_neg (fun h => h.1 (hh.mpr h.2)),
      if_neg (fun h => by rw [hinv] at h; rw [h.1] at h; exact absurd h.2 (by simp)),
      if_neg (fun h => by rw [hinv] at h; rw [h.1] at h; exact absurd h.2 (by simp))]

/-- Witness for C10: an explicit tying pair on which the comparator
returns no numeric value. -/
theorem addressComparer_tie_returns_undefined_witness :
    addressComparer candTieA candTieB = none :=
  addressComparer_tie_returns_undefined candTieA candTieB
    (by decide) (by decide) (by decide)

/-- C8: the overlap percentage is `100 * area(intersect(rectangle,
fragment)) / area(fragment)`, is exactly 0 for a zero-area fragment (the
division is never taken), and is exactly 100 for a positive-area fragment
lying entirely inside the rectangle. -/
theorem getPercentageOfElementInRectangle_spec (element : Element) (rectangle : Rectangle) :
    (getArea element.toRectangle = 0 →
      getPercentageOfElementInRectangle element rectangle = 0) ∧
    (getArea element.toRectangle ≠ 0 →
      getPercentageOfElementInRectangle element rectangle =
        100 * getArea (intersect rectangle element.toRectangle) / getArea element.toRectangle) ∧
    (0 ≤ element.width → 0 ≤ element.height → 0 < getArea element.toRectangle →
      rectangle.x ≤ element.x → rectangle.y ≤ element.y →
      element.x + element.width ≤ rectangle.x + rectangle.width →
      element.y + element.height ≤ rectangle.y + rectangle.height →
      getPercentageOfElementInRectangle element rectangle = 100) := by
  refine ⟨fun h => ?_, fun h => ?_, fun hw hh hpos hx hy hx2 hy2 => ?_⟩
  · simp [getPercentageOfElementInRectangle, h]
  · simp only [getPercentageOfElementInRectangle, if_neg h]
    ring
  · have hint : intersect rectangle element.toRectangle = element.toRectangle := by
      unfold intersect
      rw [max_eq_right hx, max_eq_right hy, min_eq_right hx2, min_eq_right hy2,
          if_pos ⟨by linarith, by linarith⟩]
      have h1 : element.x + element.width - element.x = element.width := by ring
      have h2 : element.y + element.height - element.y = element.height := by ring
      rw [h1, h2]
    unfold getPercentageOfElementInRectangle
    rw [hint, if_neg (ne_of_gt hpos), mul_comm, mul_div_assoc,
        div_self (ne_of_gt hpos), mul_one]

/-- Witness for C8: a zero-area fragment scores 0, and a positive-area
fragment entirely inside the rectangle scores exactly 100. -/
theorem getPercentageOfElementInRectangle_spec_witness :
    getPercentageOfElementInRectangle elemZeroArea rectOuter = 0 ∧
    getPercentageOfElementInRectangle elemInside rectOuter = 100 :=
  ⟨(getPercentageOfElementInRectangle_spec elemZeroArea rectOuter).1
     (by norm_num [elemZeroArea, getArea]),
   (getPercentageOfElementInRectangle_spec elemInside rectOuter).2.2
     (by norm_num [elemInside]) (by norm_num [elemInside])
     (by norm_num [elemInside, getArea]) (by norm_num [elemInside, rectOuter])
     (by norm_num [elemInside, rectOuter]) (by norm_num [elemInside, rectOuter])
     (by norm_num [elemInside, rectOuter])⟩

/-- C6 (counterexample): an address whose leading number is one digit, a
comma and FOUR digits does not match the claimed "exactly three digits"
pattern, yet `formatAddress`'s comma-normalisation step deletes its comma
(the regex `/^\d,\d\d\d/` only inspects a prefix). -/
theorem normalizeCommaNumber_deletes_comma_beyond_three_digits :
    normalizeCommaNumber "4,6655 Princes HWY MENINGIE 5264"
      = "46655 Princes HWY MENINGIE 5264" ∧
    jsSplitSpace (normalizeCommaNumber "4,6655 Princes HWY MENINGIE 5264")
      = ["46655", "Princes", "HWY", "MENINGIE", "5264"] := by
  refine ⟨by decide, by decide⟩

/-- C6 (amended): the comma-normalisation of `formatAddress` is a prefix
test — one digit (or two digits), a comma, and at least three digits —
and deletes the comma exactly when one of the two prefix patterns
matches, leaving every other address unchanged. -/
theorem normalizeCommaNumber_spec :
    (∀ (d a b c : Char) (rest : List Char),
      d.isDigit = true → a.isDigit = true → b.isDigit = true → c.isDigit = true →
      normalizeCommaNumber ⟨d :: ',' :: a :: b :: c :: rest⟩ = ⟨d :: a :: b :: c :: rest⟩) ∧
    (∀ (d e a b c : Char) (rest : List Char),
      d.isDigit = true → e.isDigit = true →
      a.isDigit = true → b.isDigit = true → c.isDigit = true →
      normalizeCommaNumber ⟨d :: e :: ',' :: a :: b :: c :: rest⟩
        = ⟨d :: e :: a :: b :: c :: rest⟩) ∧
    (∀ s : String, matchesOneDigitComma s = false → matchesTwoDigitComma s = false →
      normalizeCommaNumber s = s) := by
  refine ⟨?_, ?_, ?_⟩
  · intro d a b c rest hd ha hb hc
    have h1 : matchesOneDigitComma ⟨d :: ',' :: a :: b :: c :: rest⟩ = true := by
      simp [matchesOneDigitComma, hd, ha, hb, hc]
    simp [normalizeCommaNumber, h1]
  · intro d e a b c rest hd he ha hb hc
    have hne : (e == ',') = false := by
      rw [beq_eq_false_iff_ne]
      intro h
      rw [h] at he
      exact absurd he (by decide)
    have h1 : matchesOneDigitComma ⟨d :: e :: ',' :: a :: b :: c :: rest⟩ = false := by
      simp [matchesOneDigitComma, hne]
    have h2 : matchesTwoDigitComma ⟨d :: e :: ',' :: a :: b :: c :: rest⟩ = true := by
      simp [matchesTwoDigitComma, hd, he, ha, hb, hc]
    simp [normalizeCommaNumber, h1, h2]
  · intro s h1 h2
    simp [normalizeCommaNumber, h1, h2]

/-- Witness for C6 (amended): the spec's two worked examples, plus an
address whose leading number carries no comma pattern and is left
unchanged. -/
theorem normalizeCommaNumber_spec_witness :
    normalizeCommaNumber "4,665 Princes HWY MENINGIE 5264"
      = "4665 Princes HWY MENINGIE 5264" ∧
    normalizeCommaNumber "11,287 Princes HWY SALT CREEK 5264"
      = "11287 Princes HWY SALT CREEK 5264" ∧
    normalizeCommaNumber "123,456 Main RD" = "123,456 Main RD" :=
  ⟨normalizeCommaNumber_spec.1 '4' '6' '6' '5'
      " Princes HWY MENINGIE 5264".data (by decide) (by decide) (by decide) (by decide),
   normalizeCommaNumber_spec.2.1 '1' '1' '2' '8' '7'
      " Princes HWY SALT CREEK 5264".data
      (by decide) (by decide) (by decide) (by decide) (by decide),
   normalizeCommaNumber_spec.2.2 "123,456 Main RD" (by decide) (by decide)⟩

/-- C7: `formatAddress` pops a trailing token of exactly four digits as
the post code (pushing any other trailing token back), and then pops the
new trailing token as the state exactly when its upper-casing is one of
the eight Australian state/territory abbreviations, defaulting the state
to `"SA"` and removing no token otherwise. -/
theorem popPostcode_popState_spec :
    (∀ t : String, isFourDigits t = true ↔
      (t.data.length = 4 ∧ ∀ c ∈ t.data, c.isDigit = true)) ∧
    (∀ (tokens : List String) (t : String), tokens.getLast? = some t →
      isFourDigits t = true → popPostcode tokens = some (some t, tokens.dropLast)) ∧
    (∀ (tokens : List String) (t : String), tokens.getLast? = some t →
      isFourDigits t = false → popPostcode tokens = some (none, tokens)) ∧
    (∀ (tokens : List String) (t : String), tokens.getLast? = some t →
      stateAbbreviations.contains (toUpperStr t) = true →
      popState tokens = some (toUpperStr t, tokens.dropLast)) ∧
    (∀ (tokens : List String) (t : String), tokens.getLast? = some t →
      stateAbbreviations.contains (toUpperStr t) = false →
      popState tokens = some ("SA", tokens)) := by
  refine ⟨?_, ?_, ?_, ?_, ?_⟩
  · intro t
    obtain ⟨l⟩ := t
    rcases l with _ | ⟨a, _ | ⟨b, _ | ⟨c, _ | ⟨d, _ | ⟨e, rest⟩⟩⟩⟩⟩ <;>
      simp [isFourDigits] <;> aesop
  · intro tokens t h hfour
    simp [popPostcode, h, hfour]
  · intro tokens t h hfour
    simp [popPostcode, h, hfour]
  · intro tokens t h hstate
    have hmem : toUpperStr t ∈ stateAbbreviations := by simpa using hstate
    simp [popState, h, hmem]
  · intro tokens t h hstate
    have hmem : toUpperStr t ∉ stateAbbreviations := by simpa using hstate
    simp [popState, h, hmem]

/-- Witness for C7: a trailing four-digit token is popped as the
postcode; `"Vic"` (any letter case) is then adopted as the state, while a
non-state trailing token leaves the token list unchanged with state
`"SA"`. -/
theorem popPostcode_popState_spec_witness :
    isFourDigits "5264" = true ∧
    popPostcode ["4665", "Princes", "HWY", "MENINGIE", "5264"]
      = some (some "5264", ["4665", "Princes", "HWY", "MENINGIE"]) ∧
    popPostcode ["4665", "Princes", "HWY", "MENINGIE"]
      = some (none, ["4665", "Princes", "HWY", "MENINGIE"]) ∧
    popState ["4665", "Princes", "HWY", "MENINGIE", "Vic"]
      = some ("VIC", ["4665", "Princes", "HWY", "MENINGIE"]) ∧
    popState ["4665", "Princes", "HWY", "MENINGIE"]
      = some ("SA", ["4665", "Princes", "HWY", "MENINGIE"]) :=
  ⟨(popPostcode_popState_spec.1 "5264").mpr (by decide),
   popPostcode_popState_spec.2.1 _ "5264" (by decide) (by decide),
   popPostcode_popState_spec.2.2.1 _ "MENINGIE" (by decide) (by decide),
   popPostcode_popState_spec.2.2.2.1 _ "Vic" (by decide) (by decide),
   popPostcode_popState_spec.2.2.2.2 _ "MENINGIE" (by decide) (by decide)⟩

/-- C2 (counterexample): `formatAddress` applies no upper-casing — a
Mode 1 input whose leading tokens are lower-case yields a final address
that still contains them in lower case (here with the suburb resolved to
"MENINGIE 5264"), so the result is not "forced to upper-case" as
claimed. -/
theorem formatAddress_preserves_letter_case :
    formatAddress gMeningie "455/052/19" "lower 1 MENINGIE"
      = "lower 1, MENINGIE 5264 SA" ∧
    toUpperStr "lower 1, MENINGIE 5264 SA" ≠ "lower 1, MENINGIE 5264 SA" := by
  refine ⟨by decide, by decide⟩

/-- C2 (amended): whenever Mode 1 resolution succeeds with a non-blank
suburb string, `formatAddress` returns exactly the spec's final assembly —
remaining tokens, a space, the resolved street name, a comma, the
resolved suburb, with the street part trimmed and trailing commas
stripped and `" SA"` appended when the result lacks a standalone `SA` —
with the letter case of every part preserved as-is. -/
theorem formatAddress_assembly (g : Gazetteer) (applicationNumber address : String)
    (tokens : List String) (streetName : Option String) (suburbName fallbackAddress : String)
    (h : mode1Parse g address
      = Mode1Result.assembled tokens streetName suburbName fallbackAddress)
    (hs : jsTrim suburbName ≠ "") :
    formatAddress g applicationNumber address
      = specMode1Assembly tokens streetName suburbName := by
  unfold formatAddress
  rw [h]
  have hb : (jsTrim suburbName == "") = false := beq_eq_false_iff_ne.mpr hs
  show appendSA (if (jsTrim suburbName == "") = true then fallbackAddress
      else mode1Assemble tokens streetName suburbName)
    = specMode1Assembly tokens streetName suburbName
  rw [hb, if_neg Bool.false_ne_true]
  cases streetName with
  | none => simp [specMode1Assembly, mode1Assemble]
  | some s =>
      by_cases hts : (jsTrim s == "") = true
      · simp [specMode1Assembly, mode1Assemble, hts]
      · simp only [Bool.not_eq_true] at hts
        simp [specMode1Assembly, mode1Assemble, hts]

/-- Witness for C2 (amended): the resolved parts of
`"lower 1 MENINGIE"` assemble exactly as the (amended) spec sentence
prescribes. -/
theorem formatAddress_assembly_witness :
    formatAddress gMeningie "455/052/19" "lower 1 MENINGIE"
      = specMode1Assembly ["lower", "1"] none "MENINGIE 5264" :=
  formatAddress_assembly gMeningie "455/052/19" "lower 1 MENINGIE"
    ["lower", "1"] none "MENINGIE 5264" "lower 1 MENINGIE"
    (by decide) (by decide)

/-- C3 (counterexample): for `"22 Jefferson CT 5263"` against a gazetteer
in which no suburb window matches (both the hundred path and the suburb
path fail, as the first two conjuncts state), `formatAddress`
nevertheless returns a full address: the matched street "JEFFERSON
COURT" has a unique associated suburb, which is back-filled — the claim's
"returns the empty string even when a street name was matched" fails. -/
theorem formatAddress_backfills_suburb_from_street :
    (runHundred gJefferson ["22", "Jefferson", "CT"]).hasHundredName = false ∧
    runSuburb gJefferson ["22", "Jefferson", "CT"] = none ∧
    formatAddress gJefferson "455/052/19" "22 Jefferson CT 5263"
      = "22 JEFFERSON COURT, WELLINGTON EAST 5263 SA" := by
  refine ⟨by decide, by decide, by decide⟩

/-- C3 (amended): when Mode 1 resolution reaches the suburb check and no
suburb was resolved by the hundred path, the suburb path, or the
unique-suburb back-fill of a matched street name, `formatAddress` returns
the empty string — never the fallback address and never a partial
address. -/
theorem formatAddress_no_suburb_empty (g : Gazetteer) (applicationNumber address : String)
    (h : mode1Parse g address = Mode1Result.noSuburb) :
    formatAddress g applicationNumber address = "" := by
  unfold formatAddress
  rw [h]

/-- Witness for C3 (amended): with an empty gazetteer nothing resolves,
and the same input is rejected with the empty string. -/
theorem formatAddress_no_suburb_empty_witness :
    formatAddress emptyGazetteer "455/052/19" "22 Jefferson CT 5263" = "" :=
  formatAddress_no_suburb_empty emptyGazetteer "455/052/19" "22 Jefferson CT 5263"
    (by decide)

/-- The accumulation loop only ever appends to its accumulator. -/
lemma parsePdfGo_exists_suffix :
    ∀ (pages : List (Option DevelopmentApplication)) (acc : List DevelopmentApplication),
      ∃ l, parsePdfGo acc pages = acc ++ l := by
  intro pages
  induction pages with
  | nil => intro acc; exact ⟨[], by simp [parsePdfGo]⟩
  | cons p rest ih =>
    intro acc
    cases p with
    | none => simpa [parsePdfGo] using ih acc
    | some app =>
      simp only [parsePdfGo]
      cases hdup : acc.any (fun other => other.applicationNumber == app.applicationNumber) with
      | true => simpa [hdup] using ih acc
      | false =>
        obtain ⟨l, hl⟩ := ih (acc ++ [app])
        exact ⟨app :: l, by simp [hdup, hl]⟩

/-- Every element of the accumulator survives to the loop's result. -/
lemma mem_parsePdfGo_of_mem_acc (pages : List (Option DevelopmentApplication))
    (acc : List DevelopmentApplication) (x : DevelopmentApplication) (hx : x ∈ acc) :
    x ∈ parsePdfGo acc pages := by
  obtain ⟨l, hl⟩ := parsePdfGo_exists_suffix pages acc
  rw [hl]
  exact List.mem_append_left _ hx

/-- The loop preserves distinctness of the accumulated application
numbers. -/
lemma parsePdfGo_nodup :
    ∀ (pages : List (Option DevelopmentApplication)) (acc : List DevelopmentApplication),
      (acc.map (fun r => r.applicationNumber)).Nodup →
      ((parsePdfGo acc pages).map (fun r => r.applicationNumber)).Nodup := by
  intro pages
  induction pages with
  | nil => intro acc h; simpa [parsePdfGo] using h
  | cons p rest ih =>
    intro acc h
    cases p with
    | none => simp only [parsePdfGo]; exact ih acc h
    | some app =>
      simp only [parsePdfGo]
      cases hdup : acc.any (fun other => other.applicationNumber == app.applicationNumber) with
      | true => simpa [hdup] using ih acc h
      | false =>
        simp only [Bool.false_eq_true, if_false]
        apply ih
        rw [List.map_append, List.nodup_append]
        refine ⟨h, by simp, ?_⟩
        intro k hk hk2
        simp only [List.map_cons, List.map_nil, List.mem_singleton] at hk2
        subst hk2
        obtain ⟨y, hy, hkey⟩ := List.mem_map.mp hk
        have : acc.any (fun other => other.applicationNumber == app.applicationNumber) = true :=
          List.any_eq_true.mpr ⟨y, hy, beq_iff_eq.mpr hkey⟩
        rw [hdup] at this
        exact absurd this (by simp)

/-- Each record of the loop's result either came from the accumulator or
is the first record of the page stream carrying its application number,
with no accumulator entry sharing that number. -/
lemma parsePdfGo_first :
    ∀ (pages : List (Option DevelopmentApplication)) (acc : List DevelopmentApplication)
      (x : DevelopmentApplication), x ∈ parsePdfGo acc pages →
      x ∈ acc ∨
        ((∀ y ∈ acc, y.applicationNumber ≠ x.applicationNumber) ∧
          (pages.filterMap id).find?
            (fun r => r.applicationNumber == x.applicationNumber) = some x) := by
  intro pages
  induction pages with
  | nil =>
    intro acc x hx
    left
    simpa [parsePdfGo] using hx
  | cons p rest ih =>
    intro acc x hx
    cases p with
    | none =>
      simp only [parsePdfGo] at hx
      rcases ih acc x hx with h | ⟨hnone, hfind⟩
      · left; exact h
      · right
        refine ⟨hnone, ?_⟩
        simpa using hfind
    | some app =>
      simp only [parsePdfGo] at hx
      have hfm : (some app :: rest).filterMap id = app :: rest.filterMap id := by simp
      cases hdup : acc.any (fun other => other.applicationNumber == app.applicationNumber) with
      | true =>
        rw [hdup] at hx
        simp only [if_true] at hx
        rcases ih acc x hx with h | ⟨hnone, hfind⟩
        · left; exact h
        · right
          refine ⟨hnone, ?_⟩
          rw [hfm]
          have hne : (app.applicationNumber == x.applicationNumber) = false := by
            rw [beq_eq_false_iff_ne]
            intro he
            obtain ⟨y, hy, hbeq⟩ := List.any_eq_true.mp hdup
            exact hnone y hy ((beq_iff_eq.mp hbeq).trans he)
          rw [List.find?_cons, hne]
          exact hfind
      | false =>
        rw [hdup] at hx
        simp only [Bool.false_eq_true, if_false] at hx
        rcases ih (acc ++ [app]) x hx with h | ⟨hnone, hfind⟩
        · rcases List.mem_append.mp h with h' | h'
          · left; exact h'
          · simp only [List.mem_singleton] at h'
            subst h'
            right
            have hnacc : ∀ y ∈ acc, y.applicationNumber ≠ x.applicationNumber := by
              intro y hy he
              have : acc.any (fun other => other.applicationNumber == x.applicationNumber) = true :=
                List.any_eq_true.mpr ⟨y, hy, beq_iff_eq.mpr he⟩
              rw [hdup] at this
              exact absurd this (by simp)
            refine ⟨hnacc, ?_⟩
            rw [hfm, List.find?_cons_of_pos _ (by simp)]
        · right
          constructor
          · intro y hy
            exact hnone y (List.mem_append_left _ hy)
          · rw [hfm]
            have happ : (app.applicationNumber == x.applicationNumber) = false := by
              rw [beq_eq_false_iff_ne]
              exact hnone app (by simp)
            rw [List.find?_cons, happ]
            exact hfind

/-- Every page record's application number is represented in the loop's
result. -/
lemma parsePdfGo_complete :
    ∀ (pages : List (Option DevelopmentApplication)) (acc : List DevelopmentApplication)
      (r : DevelopmentApplication), some r ∈ pages →
      ∃ x ∈ parsePdfGo acc pages, x.applicationNumber = r.applicationNumber := by
  intro pages
  induction pages with
  | nil => intro acc r hr; simp at hr
  | cons p rest ih =>
    intro acc r hr
    rcases List.mem_cons.mp hr with he | hmem
    · cases he
      simp only [parsePdfGo]
      cases hdup : acc.any (fun other => other.applicationNumber == r.applicationNumber) with
      | true =>
        obtain ⟨y, hy, hbeq⟩ := List.any_eq_true.mp hdup
        simp only [reduceIte]
        exact ⟨y, mem_parsePdfGo_of_mem_acc rest acc y hy, beq_iff_eq.mp hbeq⟩
      | false =>
        simp only [Bool.false_eq_true, if_false]
        exact ⟨r, mem_parsePdfGo_of_mem_acc rest _ r (by simp), rfl⟩
    · cases p with
      | none => simp only [parsePdfGo]; exact ih acc r hmem
      | some app =>
        simp only [parsePdfGo]
        cases hdup : acc.any (fun other => other.applicationNumber == app.applicationNumber) with
        | true =>
          simp only [reduceIte]
          exact ih acc r hmem
        | false =>
          simp only [Bool.false_eq_true, if_false]
          exact ih _ r hmem

/-- C9: for one document the pipeline yields at most one record per
application number; each output record is the first record of the page
stream with its application number (earlier page wins); and every parsed
record's application number is represented in the output. -/
theorem parsePdf_deduplicates (pages : List (Option DevelopmentApplication)) :
    ((parsePdf pages).map (fun r => r.applicationNumber)).Nodup ∧
    (∀ x ∈ parsePdf pages,
      (pages.filterMap id).find?
        (fun r => r.applicationNumber == x.applicationNumber) = some x) ∧
    (∀ r : DevelopmentApplication, some r ∈ pages →
      ∃ x ∈ parsePdf pages, x.applicationNumber = r.applicationNumber) := by
  refine ⟨parsePdfGo_nodup pages [] (by simp), ?_, ?_⟩
  · intro x hx
    rcases parsePdfGo_first pages [] x hx with h | ⟨-, hfind⟩
    · simp at h
    · exact hfind
  · intro r hr
    exact parsePdfGo_complete pages [] r hr

/-- Witness for C9: two pages with the same application number (and a
skipped page in between) yield exactly the first record. -/
theorem parsePdf_deduplicates_witness :
    ((parsePdf [some rowOld, none, some rowNew]).map (fun r => r.applicationNumber)).Nodup ∧
    ([some rowOld, none, some rowNew].filterMap id).find?
      (fun r => r.applicationNumber == rowOld.applicationNumber) = some rowOld ∧
    rowNew.applicationNumber = rowOld.applicationNumber :=
  ⟨(parsePdf_deduplicates [some rowOld, none, some rowNew]).1,
   (parsePdf_deduplicates [some rowOld, none, some rowNew]).2.1 rowOld (by decide),
   by decide⟩

end StreakyBay
